import Mathlib

/-!
Verification of the Play As Gobo game sources (Entity/Player/Enemy, Ground,
FinishLine, Explosion/ExplosionManager, Game collision and options logic).

Modelling conventions:
* C++ `float` values are modelled as exact rationals (`ℚ`); the floating
  literals of the source (`0.75f`, `1.2f`, ...) become the corresponding
  rationals (`3/4`, `6/5`, ...).
* raylib's `Vector2Distance(a, b) < r` (a `sqrtf` of a sum of squares
  compared with `r`) is modelled by the equivalent rational predicate
  `0 < r ∧ dist2 a b < r ^ 2`; the lemma `distLt_iff_sqrt` below proves the
  encoding equivalent to the real square-root comparison.
* `static_cast<unsigned char>` of a float known to lie in `[0, 256)` is
  modelled as `byteOfRat`, truncation toward zero.
* The randomly generated particle burst of `Explosion::CreateParticles` is
  passed as an explicit list parameter (randomness as an oracle).
-/

namespace PlayAsGobo

/-- Two dimensional vector, mirroring raylib's `Vector2`. -/
structure Vec2 where
  x : ℚ
  y : ℚ
deriving DecidableEq

/-- Bounding circle, mirroring `Circle` from `Entity.hpp`. -/
structure Circle where
  center : Vec2
  radius : ℚ
deriving DecidableEq

/-- Axis-aligned rectangle, mirroring raylib's `Rectangle`. -/
structure Rect where
  x : ℚ
  y : ℚ
  width : ℚ
  height : ℚ
deriving DecidableEq

/-- RGBA colour with byte components, mirroring raylib's `Color`. -/
structure Color where
  r : ℕ
  g : ℕ
  b : ℕ
  a : ℕ
deriving DecidableEq

instance : Inhabited Color := ⟨⟨0, 0, 0, 0⟩⟩

def WHITE : Color := ⟨255, 255, 255, 255⟩

def BLACK : Color := ⟨0, 0, 0, 255⟩

def YELLOW : Color := ⟨253, 249, 0, 255⟩

def ORANGE : Color := ⟨255, 161, 0, 255⟩

def RED : Color := ⟨230, 41, 55, 255⟩

def MAROON : Color := ⟨190, 33, 55, 255⟩

def GREEN : Color := ⟨0, 228, 48, 255⟩

def BLUE : Color := ⟨0, 121, 241, 255⟩

def PURPLE : Color := ⟨200, 122, 255, 255⟩

def BROWN : Color := ⟨127, 106, 79, 255⟩

def DARKGRAY : Color := ⟨80, 80, 80, 255⟩

def GRAY : Color := ⟨130, 130, 130, 255⟩

def LIGHTGRAY : Color := ⟨200, 200, 200, 255⟩

def PINK : Color := ⟨255, 109, 194, 255⟩

def MAGENTA : Color := ⟨255, 0, 255, 255⟩

def DARKGREEN : Color := ⟨0, 117, 44, 255⟩

def DARKBLUE : Color := ⟨0, 82, 172, 255⟩

def DARKPURPLE : Color := ⟨112, 31, 126, 255⟩

def DARKBROWN : Color := ⟨76, 63, 47, 255⟩

def RAYWHITE : Color := ⟨245, 245, 245, 255⟩

def GOLD : Color := ⟨255, 203, 0, 255⟩

def LIME : Color := ⟨0, 158, 47, 255⟩

def BEIGE : Color := ⟨211, 176, 131, 255⟩

def SKYBLUE : Color := ⟨102, 191, 255, 255⟩

def VIOLET : Color := ⟨135, 60, 190, 255⟩

/-- Number of background colour options (`Game::COLOR_COUNT`). -/
def COLOR_COUNT : ℕ := 25

/-- The background colour option table (`Game::COLOR_OPTIONS`).  The C++
source declares `std::array<Color, 25>` but supplies only 24 initializers, so
the 25th element is value-initialized to `{0, 0, 0, 0}`. -/
def COLOR_OPTIONS : List Color :=
  [⟨0, 169, 212, 255⟩, BLACK, WHITE, GREEN, BLUE, YELLOW, ORANGE, PURPLE, BROWN,
   DARKGRAY, GRAY, LIGHTGRAY, PINK, MAGENTA, DARKGREEN, DARKBLUE,
   DARKPURPLE, DARKBROWN, RAYWHITE, GOLD, LIME, BEIGE, SKYBLUE, VIOLET,
   ⟨0, 0, 0, 0⟩]

/-- Component-wise colour comparison (`Game::AreColorsEqual`). -/
def areColorsEqual (c1 c2 : Color) : Bool :=
  c1.r == c2.r && c1.g == c2.g && c1.b == c2.b && c1.a == c2.a

/-- Index of the current background colour in the option table; the C++ loop
defaults to index 0 when the colour is not found. -/
def currentColorIndex (c : Color) : ℕ :=
  (COLOR_OPTIONS.findIdx? (fun o => areColorsEqual c o)).getD 0

/-- `Game::CycleToNextBackgroundColor`: step to `(index + 1) % COLOR_COUNT`. -/
def cycleToNextBackgroundColor (c : Color) : Color :=
  COLOR_OPTIONS.getD ((currentColorIndex c + 1) % COLOR_COUNT) default

/-- `Game::CycleToPreviousBackgroundColor`: the C++ computes
`(index - 1 + COLOR_COUNT) % COLOR_COUNT` in unsigned arithmetic, which for
`index < COLOR_COUNT` equals `(index + COLOR_COUNT - 1) % COLOR_COUNT`. -/
def cycleToPreviousBackgroundColor (c : Color) : Color :=
  COLOR_OPTIONS.getD ((currentColorIndex c + COLOR_COUNT - 1) % COLOR_COUNT) default

/-- Squared Euclidean distance between two points. -/
def dist2 (a b : Vec2) : ℚ :=
  (a.x - b.x) ^ 2 + (a.y - b.y) ^ 2

/-- Rational encoding of raylib's `Vector2Distance(a, b) < r`
(`sqrt (dist2 a b) < r`); see `distLt_iff_sqrt` for the equivalence with the
real square-root comparison. -/
def distLt (a b : Vec2) (r : ℚ) : Bool :=
  decide (0 < r ∧ dist2 a b < r ^ 2)

/-- Truncation of a rational known to lie in `[0, 256)` to a byte, modelling
`static_cast<unsigned char>` applied to a nonnegative float. -/
def byteOfRat (q : ℚ) : ℕ :=
  (⌊q⌋).toNat

/-- One explosion particle (`Explosion::Particle`). -/
structure Particle where
  position : Vec2
  velocity : Vec2
  life : ℚ
  maxLife : ℚ
  color : Color
  size : ℚ
  initialSize : ℚ
deriving DecidableEq

instance : Inhabited Particle :=
  ⟨⟨⟨0, 0⟩, ⟨0, 0⟩, 0, 0, WHITE, 0, 0⟩⟩

/-- `Explosion::CalculateParticleColor`: five-step colour lookup keyed by the
remaining-life ratio, with alpha `static_cast<unsigned char>(255 * lifeRatio)`. -/
def calculateParticleColor (lifeRatio : ℚ) : Color :=
  let base :=
    if 4/5 < lifeRatio then WHITE
    else if 3/5 < lifeRatio then YELLOW
    else if 2/5 < lifeRatio then ORANGE
    else if 1/5 < lifeRatio then RED
    else MAROON
  { base with a := byteOfRat (255 * lifeRatio) }

/-- `Explosion::UpdateParticle`: kinematics under gravity 200 and air
resistance 0.98, life decay, colour and size from the clamped life ratio. -/
def updateParticle (p : Particle) (dt : ℚ) : Particle :=
  if p.life ≤ 0 then p
  else
    let life := p.life - dt
    let lifeRatio := max 0 (life / p.maxLife)
    { p with
      position := ⟨p.position.x + p.velocity.x * dt, p.position.y + p.velocity.y * dt⟩,
      velocity := ⟨p.velocity.x * (49/50), (p.velocity.y + 200 * dt) * (49/50)⟩,
      life := life,
      color := calculateParticleColor lifeRatio,
      size := p.initialSize * lifeRatio }

/-- Explosion state (`Explosion`); `maxDuration` defaults to 1.5 and
`maxRadius` to 80. -/
structure Explosion where
  position : Vec2
  timer : ℚ
  maxDuration : ℚ
  maxRadius : ℚ
  isActive : Bool
  particles : List Particle
deriving DecidableEq

instance : Inhabited Explosion :=
  ⟨⟨⟨0, 0⟩, 0, 3/2, 80, false, []⟩⟩

/-- A freshly constructed `Explosion` (default member initializers). -/
def newExplosion : Explosion :=
  { position := ⟨0, 0⟩, timer := 0, maxDuration := 3/2, maxRadius := 80,
    isActive := false, particles := [] }

/-- `Explosion::Start`: place at `pos`, reset the timer, activate and create
the particle burst (the randomly generated particles are the parameter `ps`). -/
def Explosion.start (e : Explosion) (pos : Vec2) (ps : List Particle) : Explosion :=
  { e with position := pos, timer := 0, isActive := true, particles := ps }

/-- `Explosion::Update`: no-op when inactive or `deltaTime <= 0`; otherwise
advance the timer, update every particle, and deactivate once the timer
reaches the total duration. -/
def Explosion.update (e : Explosion) (dt : ℚ) : Explosion :=
  if e.isActive = false ∨ dt ≤ 0 then e
  else
    let t := e.timer + dt
    { e with timer := t,
             particles := e.particles.map (fun p => updateParticle p dt),
             isActive := decide (t < e.maxDuration) }

/-- `Explosion::GetRadius`: current blast radius, `0` when inactive. -/
def Explosion.getRadius (e : Explosion) : ℚ :=
  if e.isActive = true then min (e.timer / e.maxDuration) 1 * e.maxRadius else 0

/-- `Explosion::GetDamageRadius`. -/
def Explosion.getDamageRadius (e : Explosion) : ℚ :=
  if e.isActive = true then e.getRadius else 0

/-- `Explosion::IsInDamagePhase`. -/
def Explosion.isInDamagePhase (e : Explosion) : Bool :=
  e.isActive

/-- Explosion pool state (`ExplosionManager`); `maxExplosions` defaults
to 50. -/
structure ExplosionManager where
  explosions : List Explosion
  maxExplosions : ℕ
deriving DecidableEq

/-- A default-constructed `ExplosionManager` (empty pool, limit 50). -/
def emptyManager : ExplosionManager :=
  { explosions := [], maxExplosions := 50 }

/-- Index of the first inactive pooled explosion
(`ExplosionManager::FindInactiveExplosion`). -/
def findInactiveIdx (l : List Explosion) : Option ℕ :=
  l.findIdx? (fun e => !e.isActive)

/-- `ExplosionManager::CleanupInactiveExplosions`: drop every explosion that
is not active. -/
def cleanupInactive (l : List Explosion) : List Explosion :=
  l.filter (fun e => e.isActive)

/-- `ExplosionManager::CreateNewExplosion`: cleanup when at the limit, then
allocate and start a new explosion only if room remains; otherwise the
request is dropped with a logged warning. -/
def createNewExplosion (m : ExplosionManager) (pos : Vec2) (ps : List Particle) :
    ExplosionManager :=
  let l := if m.maxExplosions ≤ m.explosions.length then cleanupInactive m.explosions
           else m.explosions
  if l.length < m.maxExplosions then
    { m with explosions := l ++ [newExplosion.start pos ps] }
  else
    { m with explosions := l }

/-- `ExplosionManager::CreateExplosion`: restart the first inactive pooled
explosion when one exists, otherwise fall back to `createNewExplosion`. -/
def createExplosion (m : ExplosionManager) (pos : Vec2) (ps : List Particle) :
    ExplosionManager :=
  match findInactiveIdx m.explosions with
  | some i =>
      { m with explosions := m.explosions.set i ((m.explosions.getD i default).start pos ps) }
  | none => createNewExplosion m pos ps

/-- `ExplosionManager::Update`: no-op when `deltaTime <= 0`, otherwise update
every pooled explosion. -/
def ExplosionManager.update (m : ExplosionManager) (dt : ℚ) : ExplosionManager :=
  if dt ≤ 0 then m
  else { m with explosions := m.explosions.map (fun e => e.update dt) }

/-- `ExplosionManager::Clear`. -/
def ExplosionManager.clear (m : ExplosionManager) : ExplosionManager :=
  { m with explosions := [] }

/-- `ExplosionManager::CheckExplosionDamage`: true when some pooled explosion
in its damage phase overlaps the target circle. -/
def checkExplosionDamage (m : ExplosionManager) (position : Vec2) (radius : ℚ) : Bool :=
  m.explosions.any (fun e =>
    e.isInDamagePhase && distLt e.position position (e.getDamageRadius + radius))

/-- `ExplosionManager::SetMaxExplosions`: validate the new limit (throwing,
i.e. leaving the state unchanged here, outside `[1, 500]`), then cleanup
inactive explosions and drop the oldest ones while still above the limit. -/
def setMaxExplosions (m : ExplosionManager) (k : ℕ) : ExplosionManager :=
  if 1 ≤ k ∧ k ≤ 500 then
    if k < m.explosions.length then
      let cleaned := cleanupInactive m.explosions
      { explosions := cleaned.drop (cleaned.length - k), maxExplosions := k }
    else
      { m with maxExplosions := k }
  else m

/-- `ExplosionManager::ReserveExplosions` only reserves vector capacity; the
observable pool state is unchanged. -/
def reserveExplosions (m : ExplosionManager) (_count : ℕ) : ExplosionManager :=
  m

/-- Kinematic entity state shared by `Player` and `Enemy`
(`Entity`: bounding circle, vertical velocity, on-ground and phase flags). -/
structure EntityState where
  bounds : Circle
  velocityY : ℚ
  isOnGround : Bool
  canPhase : Bool
deriving DecidableEq

/-- `Entity::SetX`. -/
def EntityState.setX (e : EntityState) (x : ℚ) : EntityState :=
  { e with bounds := { e.bounds with center := { e.bounds.center with x := x } } }

/-- `Entity::SetY`. -/
def EntityState.setY (e : EntityState) (y : ℚ) : EntityState :=
  { e with bounds := { e.bounds with center := { e.bounds.center with y := y } } }

/-- `Entity::SetVelocityY`. -/
def EntityState.setVelocityY (e : EntityState) (v : ℚ) : EntityState :=
  { e with velocityY := v }

/-- `Entity::SetOnGround`. -/
def EntityState.setOnGround (e : EntityState) (b : Bool) : EntityState :=
  { e with isOnGround := b }

/-- raylib's `CheckCollisionCircleRec`: circle-versus-rectangle overlap test
via the distance from the rectangle center, with a corner-distance check. -/
def checkCollisionCircleRec (center : Vec2) (radius : ℚ) (g : Rect) : Bool :=
  let recCenterX := g.x + g.width / 2
  let recCenterY := g.y + g.height / 2
  let dx := |center.x - recCenterX|
  let dy := |center.y - recCenterY|
  if g.width / 2 + radius < dx then false
  else if g.height / 2 + radius < dy then false
  else if dx ≤ g.width / 2 then true
  else if dy ≤ g.height / 2 then true
  else decide ((dx - g.width / 2) ^ 2 + (dy - g.height / 2) ^ 2 ≤ radius ^ 2)

/-- `Ground::CheckCollision(const Circle&)`. -/
def groundCheckCollision (g : Rect) (c : Circle) : Bool :=
  checkCollisionCircleRec c.center c.radius g

/-- `Ground::IsInside(const Circle&)`: all four extremes of the circle lie
within the rectangle. -/
def groundIsInside (g : Rect) (c : Circle) : Bool :=
  decide (g.x ≤ c.center.x - c.radius ∧ c.center.x + c.radius ≤ g.x + g.width ∧
    g.y ≤ c.center.y - c.radius ∧ c.center.y + c.radius ≤ g.y + g.height)

/-- Side of a resolved collision (`CollisionSide`). -/
inductive CollisionSide where
  | none
  | left
  | right
  | top
  | bottom
deriving DecidableEq

/-- Result of a ground collision query (`CollisionInfo`); the C++
`Ground* collidedGround` pointer is modelled by the ground's rectangle. -/
structure CollisionInfo where
  hasCollision : Bool
  side : CollisionSide
  penetrationDepth : ℚ
  collidedGround : Option Rect
deriving DecidableEq

/-- The empty `CollisionInfo{}`. -/
def noCollision : CollisionInfo :=
  { hasCollision := false, side := .none, penetrationDepth := 0, collidedGround := Option.none }

/-- Interval overlap of the circle against the ground's left edge
(`overlapLeft` in `Game::GetGroundCollisionInfo`). -/
def overlapLeft (g : Rect) (c : Circle) : ℚ :=
  (c.center.x + c.radius) - g.x

/-- Interval overlap against the ground's right edge. -/
def overlapRight (g : Rect) (c : Circle) : ℚ :=
  (g.x + g.width) - (c.center.x - c.radius)

/-- Interval overlap against the ground's top edge. -/
def overlapTop (g : Rect) (c : Circle) : ℚ :=
  (c.center.y + c.radius) - g.y

/-- Interval overlap against the ground's bottom edge. -/
def overlapBottom (g : Rect) (c : Circle) : ℚ :=
  (g.y + g.height) - (c.center.y - c.radius)

/-- `Game::GetGroundCollisionInfo`: take the first ground overlapping the
circle, compute the four directional interval overlaps, and report the side
of minimum penetration (x-axis wins strictly, left and top win strictly). -/
def getGroundCollisionInfo (grounds : List Rect) (c : Circle) : CollisionInfo :=
  match grounds.find? (fun g => groundCheckCollision g c) with
  | Option.none => noCollision
  | some g =>
      let minOverlapX := min (overlapLeft g c) (overlapRight g c)
      let minOverlapY := min (overlapTop g c) (overlapBottom g c)
      if minOverlapX < minOverlapY then
        if overlapLeft g c < overlapRight g c then
          { hasCollision := true, side := .left, penetrationDepth := overlapLeft g c,
            collidedGround := some g }
        else
          { hasCollision := true, side := .right, penetrationDepth := overlapRight g c,
            collidedGround := some g }
      else
        if overlapTop g c < overlapBottom g c then
          { hasCollision := true, side := .top, penetrationDepth := overlapTop g c,
            collidedGround := some g }
        else
          { hasCollision := true, side := .bottom, penetrationDepth := overlapBottom g c,
            collidedGround := some g }

/-- The `switch (collision.side)` block of `Game::HandleGroundCollision`:
horizontal sides reposition unconditionally, vertical sides only when the
vertical velocity points into the ground. -/
def resolveGroundCollision (info : CollisionInfo) (e : EntityState) : EntityState :=
  match info.side, info.collidedGround with
  | .top, some g =>
      if 0 < e.velocityY then
        (((e.setOnGround true).setVelocityY 0).setY (g.y - e.bounds.radius))
      else e
  | .left, some g => e.setX (g.x - e.bounds.radius)
  | .right, some g => e.setX (g.x + g.width + e.bounds.radius)
  | .bottom, some g =>
      if e.velocityY < 0 then
        ((e.setVelocityY 0).setY (g.y + g.height + e.bounds.radius))
      else e
  | _, _ => e

/-- The player-only safety block of `Game::HandleGroundCollision`: when the
entity bottom is still below the ground surface, force it onto the surface. -/
def safetyClampPlayer (info : CollisionInfo) (e1 : EntityState) : EntityState :=
  match info.collidedGround with
  | some g =>
      if g.y < e1.bounds.center.y + e1.bounds.radius then
        (((e1.setY (g.y - e1.bounds.radius)).setVelocityY 0).setOnGround true)
      else e1
  | Option.none => e1

/-- `Game::HandleGroundCollision`: skip phasing entities; clear the on-ground
flag when no collision; otherwise resolve along the reported side and, for
the player, apply the safety clamp afterwards. -/
def handleGroundCollision (grounds : List Rect) (isPlayer : Bool) (e : EntityState) :
    EntityState :=
  if e.canPhase then e
  else
    let info := getGroundCollisionInfo grounds e.bounds
    if info.hasCollision = false then
      if e.isOnGround then e.setOnGround false else e
    else
      let e1 := resolveGroundCollision info e
      if isPlayer then safetyClampPlayer info e1 else e1

/-- The interval overlap belonging to a collision side, given the four
directional overlaps (used to state that the reported side attains the
reported penetration depth). -/
def sideOverlap (s : CollisionSide) (oL oR oT oB : ℚ) : Option ℚ :=
  match s with
  | .left => some oL
  | .right => some oR
  | .top => some oT
  | .bottom => some oB
  | .none => Option.none

/-- Player animation frames (`Player::AnimationFrame`). -/
inductive PlayerFrame where
  | standing
  | walking
  | idle
deriving DecidableEq

/-- Enemy animation frames (`Enemy::AnimationFrame`). -/
inductive EnemyFrame where
  | idle
  | running1
  | running2
  | running3
deriving DecidableEq

/-- Enemy facing direction (`EnemyDirection`). -/
inductive EnemyDirection where
  | right
  | left
deriving DecidableEq

/-- Player state (`Player`, including its `Entity` base). -/
structure PlayerState where
  bounds : Circle
  velocityY : ℚ
  isOnGround : Bool
  canPhase : Bool
  moveSpeed : ℚ
  originalRadius : ℚ
  sizeScale : ℚ
  animationTimer : ℚ
  killCount : ℕ
  currentFrame : PlayerFrame
  isMoving : Bool
  canUseBomb : Bool
deriving DecidableEq

/-- `Player::UpdateRadius`: recompute the radius from the original radius and
the size scale; `Entity::SetRadius` throws outside `[1, 1000]`, and the catch
block keeps the current radius in that case. -/
def Player.updateRadius (p : PlayerState) : PlayerState :=
  let newRadius := p.originalRadius * p.sizeScale
  if newRadius < 1 ∨ 1000 < newRadius then p
  else { p with bounds := { p.bounds with radius := newRadius } }

/-- `Player::TakeDamage`: scale by 0.75, clamp below at 0.1, then update the
radius. -/
def Player.takeDamage (p : PlayerState) : PlayerState :=
  let s0 := p.sizeScale * (3/4)
  let s1 := if s0 < 1/10 then 1/10 else s0
  Player.updateRadius { p with sizeScale := s1 }

/-- `Player::GrowLarger`: scale by 1.2, clamp above at 5, then update the
radius. -/
def Player.growLarger (p : PlayerState) : PlayerState :=
  let s0 := p.sizeScale * (6/5)
  let s1 := if 5 < s0 then 5 else s0
  Player.updateRadius { p with sizeScale := s1 }

/-- `Player::ShrinkSize`: divide the scale by 1.1, clamp below at 0.1, then
update the radius. -/
def Player.shrinkSize (p : PlayerState) : PlayerState :=
  let s0 := p.sizeScale / (11/10)
  let s1 := if s0 < 1/10 then 1/10 else s0
  Player.updateRadius { p with sizeScale := s1 }

/-- `Player::UpdateAnimation`: advance the timer and, every 0.2 seconds,
alternate standing/walking while moving and standing/idle otherwise. -/
def Player.updateAnimation (p : PlayerState) (dt : ℚ) : PlayerState :=
  let t := p.animationTimer + dt
  if 1/5 ≤ t then
    { p with animationTimer := 0,
             currentFrame :=
               if p.isMoving then
                 (if p.currentFrame = .standing then .walking else .standing)
               else
                 (if p.currentFrame = .standing then .idle else .standing) }
  else { p with animationTimer := t }

/-- `Player::Update`: no-op when `deltaTime <= 0`, otherwise update the
animation. -/
def Player.update (p : PlayerState) (dt : ℚ) : PlayerState :=
  if dt ≤ 0 then p else Player.updateAnimation p dt

/-- Enemy state (`Enemy`, including its `Entity` base). -/
structure EnemyState where
  bounds : Circle
  velocityY : ℚ
  isOnGround : Bool
  canPhase : Bool
  moveSpeed : ℚ
  animationTimer : ℚ
  currentFrame : EnemyFrame
  direction : EnemyDirection
  isMoving : Bool
deriving DecidableEq

/-- `Entity::Jump`: impulse `JUMP_FORCE = -550` and leave the ground. -/
def Enemy.jump (e : EnemyState) : EnemyState :=
  { e with velocityY := -550, isOnGround := false }

/-- `Enemy::ShouldMoveRight`. -/
def Enemy.shouldMoveRight (e : EnemyState) (finishLineX mapWidth : ℚ) : Bool :=
  decide (e.bounds.center.x < finishLineX ∧ e.bounds.center.x + e.bounds.radius < mapWidth)

/-- `Enemy::ShouldMoveLeft`. -/
def Enemy.shouldMoveLeft (e : EnemyState) (finishLineX : ℚ) : Bool :=
  decide (finishLineX < e.bounds.center.x ∧ 0 < e.bounds.center.x - e.bounds.radius)

/-- `Enemy::UpdateMovement`: walk toward the finish line, setting direction
and the moving flag. -/
def Enemy.updateMovement (e : EnemyState) (dt mapWidth finishLineX : ℚ) : EnemyState :=
  let e0 := { e with isMoving := false }
  if Enemy.shouldMoveRight e0 finishLineX mapWidth then
    { e0 with direction := .right, isMoving := true,
              bounds := { e0.bounds with center :=
                { e0.bounds.center with x := e0.bounds.center.x + e0.moveSpeed * dt } } }
  else if Enemy.shouldMoveLeft e0 finishLineX then
    { e0 with direction := .left, isMoving := true,
              bounds := { e0.bounds with center :=
                { e0.bounds.center with x := e0.bounds.center.x - e0.moveSpeed * dt } } }
  else e0

/-- `Enemy::IsPlayerInJumpRange`: within detection range 200 and in the faced
direction. -/
def Enemy.isPlayerInJumpRange (e : EnemyState) (playerX : ℚ) : Bool :=
  let enemyX := e.bounds.center.x
  let distance := |playerX - enemyX|
  if 200 < distance then false
  else
    match e.direction with
    | .right => decide (enemyX ≤ playerX ∧ playerX ≤ enemyX + 200)
    | .left => decide (playerX ≤ enemyX ∧ enemyX - 200 ≤ playerX)

/-- `Enemy::HandlePlayerProximityJump`. -/
def Enemy.handlePlayerProximityJump (e : EnemyState) (playerX : ℚ) : EnemyState :=
  if e.isOnGround && Enemy.isPlayerInJumpRange e playerX then Enemy.jump e else e

/-- `Enemy::ExecuteAI`: warn and return when `deltaTime <= 0`, otherwise move
toward the finish line and jump when the player is near. -/
def Enemy.executeAI (e : EnemyState) (dt mapWidth finishLineX playerX : ℚ) : EnemyState :=
  if dt ≤ 0 then e
  else Enemy.handlePlayerProximityJump (Enemy.updateMovement e dt mapWidth finishLineX) playerX

/-- `Enemy::UpdateAnimation`: running frame 1 in the air, cycle the running
frames every 0.1 seconds while moving on the ground, idle otherwise. -/
def Enemy.updateAnimation (e : EnemyState) (dt : ℚ) : EnemyState :=
  if e.isOnGround = false then
    { e with currentFrame := .running1, animationTimer := 0 }
  else if e.isMoving then
    let t := e.animationTimer + dt
    if 1/10 ≤ t then
      { e with animationTimer := 0,
               currentFrame :=
                 match e.currentFrame with
                 | .running1 => .running2
                 | .running2 => .running3
                 | _ => .running1 }
    else { e with animationTimer := t }
  else
    { e with currentFrame := .idle, animationTimer := 0 }

/-- `Enemy::Update`: no-op when `deltaTime <= 0`, otherwise update the
animation. -/
def Enemy.update (e : EnemyState) (dt : ℚ) : EnemyState :=
  if dt ≤ 0 then e else Enemy.updateAnimation e dt

/-- One public `ExplosionManager` operation, for stating pool invariants. -/
inductive PoolOp where
  | create (pos : Vec2) (ps : List Particle)
  | update (dt : ℚ)
  | clear
  | setMax (k : ℕ)
  | reserve (n : ℕ)

/-- Apply one `ExplosionManager` operation. -/
def applyOp (m : ExplosionManager) : PoolOp → ExplosionManager
  | .create pos ps => createExplosion m pos ps
  | .update dt => m.update dt
  | .clear => m.clear
  | .setMax k => setMaxExplosions m k
  | .reserve n => reserveExplosions m n

/-- Texture handle as far as validation observes it (raylib `Texture2D`). -/
structure Texture where
  id : ℕ
  width : ℤ
  height : ℤ
deriving DecidableEq

/-- Propagate the first validation failure (models one `Validate...()` call
followed by the rest of a constructor body). -/
def andThen {α : Type} (a : Except String Unit) (b : Except String α) : Except String α :=
  match a with
  | .error e => .error e
  | .ok _ => b

/-- True when a constructor did not throw. -/
def exceptOk {α : Type} (x : Except String α) : Bool :=
  match x with
  | .ok _ => true
  | .error _ => false

/-- `Entity::ValidateRadius`: throws outside `[1, 1000]`. -/
def Entity.validateRadius (radius : ℚ) : Except String Unit :=
  if radius < 1 then .error "Entity radius cannot be less than 1"
  else if 1000 < radius then .error "Entity radius cannot be greater than 1000"
  else .ok ()

/-- The `Entity(float, float, float)` constructor. -/
def mkEntity (x y radius : ℚ) : Except String EntityState :=
  andThen (Entity.validateRadius radius)
    (.ok { bounds := ⟨⟨x, y⟩, radius⟩, velocityY := 0, isOnGround := false,
           canPhase := false })

/-- `Player::ValidateTextures`: throws when empty, fewer than 3 frames, or
some texture has id 0. -/
def Player.validateTextures (textures : List Texture) : Except String Unit :=
  if textures.isEmpty then .error "Player textures cannot be empty"
  else if textures.length < 3 then .error "Player requires at least 3 texture frames"
  else if textures.any (fun t => t.id == 0) then
    .error "Player texture is not properly loaded"
  else .ok ()

/-- `Player::ValidateScale`: throws outside `[0.1, 10]`. -/
def Player.validateScale (scale : ℚ) : Except String Unit :=
  if scale < 1/10 ∨ 10 < scale then .error "Player scale must be between 0.1 and 10"
  else .ok ()

/-- `Player::ValidateSpeed`: throws outside `[1, 2000]`. -/
def Player.validateSpeed (speed : ℚ) : Except String Unit :=
  if speed < 1 ∨ 2000 < speed then .error "Player speed must be between 1 and 2000"
  else .ok ()

/-- The `Player` constructor: the `Entity` base validates `radius * scale`,
then textures, scale and speed are validated in order. -/
def mkPlayer (x y radius : ℚ) (textures : List Texture) (scale speed : ℚ) :
    Except String PlayerState :=
  andThen (Entity.validateRadius (radius * scale))
    (andThen (Player.validateTextures textures)
      (andThen (Player.validateScale scale)
        (andThen (Player.validateSpeed speed)
          (.ok { bounds := ⟨⟨x, y⟩, radius * scale⟩, velocityY := 0,
                 isOnGround := false, canPhase := false, moveSpeed := speed,
                 originalRadius := radius, sizeScale := scale,
                 animationTimer := 0, killCount := 0,
                 currentFrame := .standing, isMoving := false,
                 canUseBomb := false }))))

/-- `Enemy::ValidateTextures`: throws when empty, fewer than 4 frames, or
some texture has id 0. -/
def Enemy.validateTextures (textures : List Texture) : Except String Unit :=
  if textures.isEmpty then .error "Enemy textures cannot be empty"
  else if textures.length < 4 then
    .error "Enemy requires at least 4 texture frames"
  else if textures.any (fun t => t.id == 0) then
    .error "Enemy texture is not properly loaded"
  else .ok ()

/-- `Enemy::ValidateSpeed`: throws outside `[1, 1000]`. -/
def Enemy.validateSpeed (speed : ℚ) : Except String Unit :=
  if speed < 1 ∨ 1000 < speed then .error "Enemy speed must be between 1 and 1000"
  else .ok ()

/-- The `Enemy` constructor: the `Entity` base validates the radius, then
textures and speed are validated in order. -/
def mkEnemy (x y radius : ℚ) (textures : List Texture) (speed : ℚ)
    (dir : EnemyDirection) : Except String EnemyState :=
  andThen (Entity.validateRadius radius)
    (andThen (Enemy.validateTextures textures)
      (andThen (Enemy.validateSpeed speed)
        (.ok { bounds := ⟨⟨x, y⟩, radius⟩, velocityY := 0, isOnGround := false,
               canPhase := false, moveSpeed := speed, animationTimer := 0,
               currentFrame := .idle, direction := dir, isMoving := false })))

/-- `Ground::ValidateDimensions`: throws when width or height is outside
`[1, 10000]`. -/
def Ground.validateDimensions (width height : ℚ) : Except String Unit :=
  if width < 1 ∨ 10000 < width then
    .error "Ground width must be between 1 and 10000"
  else if height < 1 ∨ 10000 < height then
    .error "Ground height must be between 1 and 10000"
  else .ok ()

/-- `Ground::ValidateTexture`: throws on id 0 or non-positive dimensions. -/
def Ground.validateTexture (t : Texture) : Except String Unit :=
  if t.id == 0 then .error "Ground texture is not properly loaded"
  else if t.width ≤ 0 ∨ t.height ≤ 0 then
    .error "Ground texture has invalid dimensions"
  else .ok ()

/-- The `Ground` constructors: dimensions are validated first, and the
texture (when one is supplied) afterwards. -/
def mkGround (x y width height : ℚ) (texture : Option Texture) : Except String Rect :=
  andThen (Ground.validateDimensions width height)
    (andThen (match texture with
              | some t => Ground.validateTexture t
              | Option.none => .ok ())
      (.ok ⟨x, y, width, height⟩))

/-- Well-formed particle: positive maximum life, life bounded by it, and the
stored alpha consistent with the clamped life ratio (true of a fresh particle,
whose colour is `WHITE` with alpha `255` and whose life equals its maximum). -/
def wfParticle (p : Particle) : Prop :=
  0 < p.maxLife ∧ p.life ≤ p.maxLife ∧
    p.color.a = byteOfRat (255 * max 0 (p.life / p.maxLife))

/-- Iterated `Explosion::Update` over a list of frame times. -/
def applyUpdates (e : Explosion) (ds : List ℚ) : Explosion :=
  ds.foldl Explosion.update e

/-- Size-scale and radius bounds asserted for the player
(scale in `[0.1, 5]`, radius in `[MIN_RADIUS, MAX_RADIUS] = [1, 1000]`). -/
def playerSizeOk (p : PlayerState) : Prop :=
  1/10 ≤ p.sizeScale ∧ p.sizeScale ≤ 5 ∧ 1 ≤ p.bounds.radius ∧ p.bounds.radius ≤ 1000

/-- Concrete active explosion a third of the way through its duration. -/
def exC1 : Explosion :=
  { position := ⟨0, 0⟩, timer := 1/2, maxDuration := 3/2, maxRadius := 80,
    isActive := true, particles := [] }

/-- Concrete manager holding `exC1`. -/
def mgrC1 : ExplosionManager :=
  { explosions := [exC1], maxExplosions := 50 }

/-- Concrete ground rectangle. -/
def groundC2 : Rect := ⟨0, 0, 100, 10⟩

/-- Concrete enemy entity whose circle sits entirely inside `groundC2` with
zero vertical velocity. -/
def enemyC2 : EntityState :=
  { bounds := ⟨⟨50, 5⟩, 2⟩, velocityY := 0, isOnGround := false, canPhase := false }

/-- Concrete player entity overlapping `groundC2` while falling. -/
def playerC2 : EntityState :=
  { bounds := ⟨⟨50, 3⟩, 4⟩, velocityY := 1, isOnGround := false, canPhase := false }

/-- Concrete entity overlapping `groundC2` from its left edge. -/
def entC4 : EntityState :=
  { bounds := ⟨⟨-1, 5⟩, 2⟩, velocityY := 0, isOnGround := false, canPhase := false }

/-- Concrete player at the game start configuration (radius 16, scale 2). -/
def playerC5 : PlayerState :=
  { bounds := ⟨⟨0, 0⟩, 32⟩, velocityY := 0, isOnGround := false, canPhase := false,
    moveSpeed := 200, originalRadius := 16, sizeScale := 2, animationTimer := 0,
    killCount := 0, currentFrame := .standing, isMoving := false, canUseBomb := false }

/-- Concrete manager holding one inactive pooled explosion. -/
def mgrC3 : ExplosionManager :=
  { explosions := [{ position := ⟨5, 5⟩, timer := 2, maxDuration := 3/2,
                     maxRadius := 80, isActive := false, particles := [] }],
    maxExplosions := 50 }

/-- Concrete fresh particle (full life, white, alpha 255). -/
def particleC7 : Particle :=
  { position := ⟨0, 0⟩, velocity := ⟨100, 0⟩, life := 1, maxLife := 1,
    color := WHITE, size := 5, initialSize := 5 }

/-- Concrete active explosion holding `particleC7`. -/
def exC7 : Explosion :=
  { position := ⟨0, 0⟩, timer := 0, maxDuration := 3/2, maxRadius := 80,
    isActive := true, particles := [particleC7] }

/-- Concrete grounded enemy. -/
def enemyC10 : EnemyState :=
  { bounds := ⟨⟨0, 0⟩, 32⟩, velocityY := 0, isOnGround := true, canPhase := false,
    moveSpeed := 200, animationTimer := 0, currentFrame := .idle,
    direction := .right, isMoving := false }

/-- C8: background colour cycling wraps at both ends of the 25-entry option
list (next of the last option is the first, previous of the first is the
last), and next/previous are mutually inverse on every option. -/
theorem backgroundColor_cycling_wraps :
    cycleToNextBackgroundColor (COLOR_OPTIONS.getD (COLOR_COUNT - 1) default) =
      COLOR_OPTIONS.getD 0 default ∧
    cycleToPreviousBackgroundColor (COLOR_OPTIONS.getD 0 default) =
      COLOR_OPTIONS.getD (COLOR_COUNT - 1) default ∧
    (COLOR_OPTIONS.all fun c =>
      areColorsEqual (cycleToPreviousBackgroundColor (cycleToNextBackgroundColor c)) c &&
      areColorsEqual (cycleToNextBackgroundColor (cycleToPreviousBackgroundColor c)) c) = true :=
  ⟨by decide, by decide, by decide⟩

/-- C10: every per-frame update is a no-op on non-positive `deltaTime`:
`Explosion::Update`, `ExplosionManager::Update`, `Player::Update`,
`Enemy::Update` and `Enemy::ExecuteAI` leave the state unchanged. -/
theorem update_noop_on_nonpositive_dt (dt : ℚ) (hdt : dt ≤ 0) (ex : Explosion)
    (m : ExplosionManager) (p : PlayerState) (en : EnemyState)
    (mapWidth finishLineX playerX : ℚ) :
    Explosion.update ex dt = ex ∧ ExplosionManager.update m dt = m ∧
    Player.update p dt = p ∧ Enemy.update en dt = en ∧
    Enemy.executeAI en dt mapWidth finishLineX playerX = en := by
  refine ⟨?_, ?_, ?_, ?_, ?_⟩ <;>
    simp [Explosion.update, ExplosionManager.update, Player.update, Enemy.update,
          Enemy.executeAI, hdt]

/-- Witness for C10 at `deltaTime = 0` and concrete states. -/
theorem update_noop_on_nonpositive_dt_witness :
    ((0:ℚ) ≤ 0) ∧
    (Explosion.update exC1 0 = exC1 ∧ ExplosionManager.update mgrC1 0 = mgrC1 ∧
     Player.update playerC5 0 = playerC5 ∧ Enemy.update enemyC10 0 = enemyC10 ∧
     Enemy.executeAI enemyC10 0 1000 500 0 = enemyC10) :=
  ⟨le_refl 0, update_noop_on_nonpositive_dt 0 (le_refl 0) exC1 mgrC1 playerC5 enemyC10 1000 500 0⟩

/-- `Player::UpdateRadius` never changes the size scale. -/
theorem updateRadius_sizeScale (p : PlayerState) :
    (Player.updateRadius p).sizeScale = p.sizeScale := by
  simp only [Player.updateRadius]
  split_ifs <;> rfl

/-- `Player::UpdateRadius` keeps the radius inside `[1, 1000]` when it was
inside before the call: either the new radius is accepted by
`Entity::SetRadius` (hence in range) or the old radius is kept. -/
theorem updateRadius_radius_bounds (p : PlayerState) (h1 : 1 ≤ p.bounds.radius)
    (h2 : p.bounds.radius ≤ 1000) :
    1 ≤ (Player.updateRadius p).bounds.radius ∧
      (Player.updateRadius p).bounds.radius ≤ 1000 := by
  simp only [Player.updateRadius]
  split_ifs with h
  · exact ⟨h1, h2⟩
  · push_neg at h
    exact ⟨h.1, h.2⟩

/-- C5: the player size scale stays inside `[0.1, 5]` and the radius inside
`[1, 1000]` across `Player::TakeDamage`, `Player::GrowLarger` and
`Player::ShrinkSize` (with `UpdateRadius` keeping the radius unchanged when
the recomputed value would be out of range). -/
theorem player_size_bounds_preserved (p : PlayerState) (h : playerSizeOk p) :
    playerSizeOk (Player.takeDamage p) ∧ playerSizeOk (Player.growLarger p) ∧
      playerSizeOk (Player.shrinkSize p) := by
  obtain ⟨hs1, hs2, hr1, hr2⟩ := h
  refine ⟨?_, ?_, ?_⟩
  · simp only [Player.takeDamage, playerSizeOk, updateRadius_sizeScale]
    refine ⟨?_, ?_, updateRadius_radius_bounds _ hr1 hr2⟩
    · split_ifs with hlt
      · norm_num
      · push_neg at hlt
        exact hlt
    · split_ifs with hlt
      · norm_num
      · nlinarith
  · simp only [Player.growLarger, playerSizeOk, updateRadius_sizeScale]
    refine ⟨?_, ?_, updateRadius_radius_bounds _ hr1 hr2⟩
    · split_ifs with hlt
      · norm_num
      · nlinarith
    · split_ifs with hlt
      · norm_num
      · push_neg at hlt
        exact hlt
  · simp only [Player.shrinkSize, playerSizeOk, updateRadius_sizeScale]
    refine ⟨?_, ?_, updateRadius_radius_bounds _ hr1 hr2⟩
    · split_ifs with hlt
      · norm_num
      · push_neg at hlt
        exact hlt
    · split_ifs with hlt
      · norm_num
      · rw [div_le_iff₀ (by norm_num : (0:ℚ) < 11/10)]
        nlinarith

/-- Witness for C5 at the game start player (scale 2, radius 32). -/
theorem player_size_bounds_preserved_witness :
    playerSizeOk playerC5 ∧
      (playerSizeOk (Player.takeDamage playerC5) ∧
       playerSizeOk (Player.growLarger playerC5) ∧
       playerSizeOk (Player.shrinkSize playerC5)) :=
  ⟨by norm_num [playerSizeOk, playerC5],
   player_size_bounds_preserved playerC5 (by norm_num [playerSizeOk, playerC5])⟩

/-- Sequencing validations succeeds exactly when both parts succeed. -/
theorem exceptOk_andThen {α : Type} (a : Except String Unit) (b : Except String α) :
    exceptOk (andThen a b) = (exceptOk a && exceptOk b) := by
  cases a <;> rfl

/-- A constructor body that already passed validation succeeds. -/
theorem exceptOk_ok {α : Type} (a : α) : exceptOk (Except.ok a : Except String α) = true :=
  rfl

/-- `Entity::ValidateRadius` succeeds exactly on `[1, 1000]`. -/
theorem validateRadius_ok (r : ℚ) :
    exceptOk (Entity.validateRadius r) = true ↔ 1 ≤ r ∧ r ≤ 1000 := by
  simp only [Entity.validateRadius]
  split_ifs with h1 h2
  · exact iff_of_false (by simp [exceptOk]) (fun hP => absurd hP.1 (by linarith))
  · exact iff_of_false (by simp [exceptOk]) (fun hP => absurd hP.2 (by linarith))
  · exact iff_of_true rfl ⟨by linarith, by linarith⟩

/-- `Player::ValidateTextures` succeeds exactly on a non-empty list of at
least 3 loaded textures. -/
theorem playerValidateTextures_ok (ts : List Texture) :
    exceptOk (Player.validateTextures ts) = true ↔
      (ts ≠ [] ∧ 3 ≤ ts.length ∧ ∀ t ∈ ts, t.id ≠ 0) := by
  simp only [Player.validateTextures]
  split_ifs with h1 h2 h3
  · exact iff_of_false (by simp [exceptOk]) (fun hP => hP.1 (List.isEmpty_iff.mp h1))
  · exact iff_of_false (by simp [exceptOk]) (fun hP => absurd hP.2.1 (by omega))
  · refine iff_of_false (by simp [exceptOk]) (fun hP => ?_)
    obtain ⟨t, ht, hid⟩ := List.any_eq_true.mp h3
    exact hP.2.2 t ht (by simpa using hid)
  · refine iff_of_true rfl ⟨?_, by omega, ?_⟩
    · intro hnil
      exact h1 (by simp [hnil])
    · intro t ht hid
      exact h3 (List.any_eq_true.mpr ⟨t, ht, by simp [hid]⟩)

/-- `Player::ValidateScale` succeeds exactly on `[0.1, 10]`. -/
theorem playerValidateScale_ok (s : ℚ) :
    exceptOk (Player.validateScale s) = true ↔ 1/10 ≤ s ∧ s ≤ 10 := by
  simp only [Player.validateScale]
  split_ifs with h1
  · refine iff_of_false (by simp [exceptOk]) (fun hP => ?_)
    rcases h1 with h | h
    · exact absurd hP.1 (by linarith)
    · exact absurd hP.2 (by linarith)
  · push_neg at h1
    exact iff_of_true rfl ⟨h1.1, h1.2⟩

/-- `Player::ValidateSpeed` succeeds exactly on `[1, 2000]`. -/
theorem playerValidateSpeed_ok (v : ℚ) :
    exceptOk (Player.validateSpeed v) = true ↔ 1 ≤ v ∧ v ≤ 2000 := by
  simp only [Player.validateSpeed]
  split_ifs with h1
  · refine iff_of_false (by simp [exceptOk]) (fun hP => ?_)
    rcases h1 with h | h
    · exact absurd hP.1 (by linarith)
    · exact absurd hP.2 (by linarith)
  · push_neg at h1
    exact iff_of_true rfl ⟨h1.1, h1.2⟩

/-- `Enemy::ValidateTextures` succeeds exactly on a non-empty list of at
least 4 loaded textures. -/
theorem enemyValidateTextures_ok (ts : List Texture) :
    exceptOk (Enemy.validateTextures ts) = true ↔
      (ts ≠ [] ∧ 4 ≤ ts.length ∧ ∀ t ∈ ts, t.id ≠ 0) := by
  simp only [Enemy.validateTextures]
  split_ifs with h1 h2 h3
  · exact iff_of_false (by simp [exceptOk]) (fun hP => hP.1 (List.isEmpty_iff.mp h1))
  · exact iff_of_false (by simp [exceptOk]) (fun hP => absurd hP.2.1 (by omega))
  · refine iff_of_false (by simp [exceptOk]) (fun hP => ?_)
    obtain ⟨t, ht, hid⟩ := List.any_eq_true.mp h3
    exact hP.2.2 t ht (by simpa using hid)
  · refine iff_of_true rfl ⟨?_, by omega, ?_⟩
    · intro hnil
      exact h1 (by simp [hnil])
    · intro t ht hid
      exact h3 (List.any_eq_true.mpr ⟨t, ht, by simp [hid]⟩)

/-- `Enemy::ValidateSpeed` succeeds exactly on `[1, 1000]`. -/
theorem enemyValidateSpeed_ok (v : ℚ) :
    exceptOk (Enemy.validateSpeed v) = true ↔ 1 ≤ v ∧ v ≤ 1000 := by
  simp only [Enemy.validateSpeed]
  split_ifs with h1
  · refine iff_of_false (by simp [exceptOk]) (fun hP => ?_)
    rcases h1 with h | h
    · exact absurd hP.1 (by linarith)
    · exact absurd hP.2 (by linarith)
  · push_neg at h1
    exact iff_of_true rfl ⟨h1.1, h1.2⟩

/-- `Ground::ValidateDimensions` succeeds exactly when both dimensions lie in
`[1, 10000]`. -/
theorem groundValidateDimensions_ok (w h : ℚ) :
    exceptOk (Ground.validateDimensions w h) = true ↔
      (1 ≤ w ∧ w ≤ 10000) ∧ (1 ≤ h ∧ h ≤ 10000) := by
  simp only [Ground.validateDimensions]
  split_ifs with h1 h2
  · refine iff_of_false (by simp [exceptOk]) (fun hP => ?_)
    rcases h1 with hh | hh
    · exact absurd hP.1.1 (by linarith)
    · exact absurd hP.1.2 (by linarith)
  · refine iff_of_false (by simp [exceptOk]) (fun hP => ?_)
    rcases h2 with hh | hh
    · exact absurd hP.2.1 (by linarith)
    · exact absurd hP.2.2 (by linarith)
  · push_neg at h1 h2
    exact iff_of_true rfl ⟨⟨h1.1, h1.2⟩, h2.1, h2.2⟩

/-- `Ground::ValidateTexture` succeeds exactly on a loaded texture with
positive dimensions. -/
theorem groundValidateTexture_ok (t : Texture) :
    exceptOk (Ground.validateTexture t) = true ↔
      t.id ≠ 0 ∧ 0 < t.width ∧ 0 < t.height := by
  simp only [Ground.validateTexture]
  split_ifs with h1 h2
  · exact iff_of_false (by simp [exceptOk]) (fun hP => hP.1 (by simpa using h1))
  · refine iff_of_false (by simp [exceptOk]) (fun hP => ?_)
    rcases h2 with hh | hh
    · exact absurd hP.2.1 (by linarith)
    · exact absurd hP.2.2 (by linarith)
  · push_neg at h2
    exact iff_of_true rfl ⟨by simpa using h1, h2.1, h2.2⟩

/-- C9: the `Entity`, `Player`, `Enemy` and `Ground` constructors throw
exactly when some parameter is outside its documented range (Entity radius
outside `[1, 1000]`, Player scale outside `[0.1, 10]`, Player speed outside
`[1, 2000]`, Enemy speed outside `[1, 1000]`, Ground dimensions outside
`[1, 10000]`, or a texture with id 0 / non-positive dimensions); for in-range
parameters construction succeeds. -/
theorem construction_validation_iff (x y radius scale speed espeed w h : ℚ)
    (pts ets : List Texture) (t : Texture) (dir : EnemyDirection) :
    (exceptOk (mkEntity x y radius) = true ↔ (1 ≤ radius ∧ radius ≤ 1000)) ∧
    (exceptOk (mkPlayer x y radius pts scale speed) = true ↔
      ((1 ≤ radius * scale ∧ radius * scale ≤ 1000) ∧
       (pts ≠ [] ∧ 3 ≤ pts.length ∧ ∀ tx ∈ pts, tx.id ≠ 0) ∧
       (1/10 ≤ scale ∧ scale ≤ 10) ∧ (1 ≤ speed ∧ speed ≤ 2000))) ∧
    (exceptOk (mkEnemy x y radius ets espeed dir) = true ↔
      ((1 ≤ radius ∧ radius ≤ 1000) ∧
       (ets ≠ [] ∧ 4 ≤ ets.length ∧ ∀ tx ∈ ets, tx.id ≠ 0) ∧
       (1 ≤ espeed ∧ espeed ≤ 1000))) ∧
    (exceptOk (mkGround x y w h (some t)) = true ↔
      (((1 ≤ w ∧ w ≤ 10000) ∧ (1 ≤ h ∧ h ≤ 10000)) ∧
       (t.id ≠ 0 ∧ 0 < t.width ∧ 0 < t.height))) ∧
    (exceptOk (mkGround x y w h Option.none) = true ↔
      ((1 ≤ w ∧ w ≤ 10000) ∧ (1 ≤ h ∧ h ≤ 10000))) := by
  refine ⟨?_, ?_, ?_, ?_, ?_⟩
  · rw [mkEntity, exceptOk_andThen]
    simp only [Bool.and_eq_true, validateRadius_ok, exceptOk_ok, and_true]
  · rw [mkPlayer, exceptOk_andThen, exceptOk_andThen, exceptOk_andThen, exceptOk_andThen]
    simp only [Bool.and_eq_true, validateRadius_ok, playerValidateTextures_ok,
      playerValidateScale_ok, playerValidateSpeed_ok, exceptOk_ok, and_true]
  · rw [mkEnemy, exceptOk_andThen, exceptOk_andThen, exceptOk_andThen]
    simp only [Bool.and_eq_true, validateRadius_ok, enemyValidateTextures_ok,
      enemyValidateSpeed_ok, exceptOk_ok, and_true]
  · rw [mkGround, exceptOk_andThen, exceptOk_andThen]
    simp only [Bool.and_eq_true, groundValidateDimensions_ok, groundValidateTexture_ok,
      exceptOk_ok, and_true]
  · rw [mkGround, exceptOk_andThen, exceptOk_andThen]
    simp only [Bool.and_eq_true, groundValidateDimensions_ok, exceptOk_ok, and_true]

/-- The rational encoding `distLt` agrees with the real comparison
`sqrt (dist2 a b) < r` that the C++ `Vector2Distance(a, b) < r` performs. -/
theorem distLt_iff_sqrt (a b : Vec2) (r : ℚ) :
    distLt a b r = true ↔ Real.sqrt ((dist2 a b : ℚ) : ℝ) < (r : ℝ) := by
  have hd : (0:ℝ) ≤ ((dist2 a b : ℚ) : ℝ) := by
    have : (0:ℚ) ≤ dist2 a b := by
      rw [dist2]
      positivity
    exact_mod_cast this
  simp only [distLt, decide_eq_true_eq]
  constructor
  · rintro ⟨hr, hlt⟩
    have hr' : (0:ℝ) < (r : ℝ) := by exact_mod_cast hr
    rw [show ((r:ℝ)) = Real.sqrt ((r:ℝ) ^ 2) from (Real.sqrt_sq hr'.le).symm]
    exact Real.sqrt_lt_sqrt hd (by exact_mod_cast hlt)
  · intro hlt
    have hr' : (0:ℝ) < (r : ℝ) := lt_of_le_of_lt (Real.sqrt_nonneg _) hlt
    have hlt2 : ((dist2 a b : ℚ) : ℝ) < (r : ℝ) ^ 2 :=
      (Real.sqrt_lt' hr').mp hlt
    exact ⟨by exact_mod_cast hr', by exact_mod_cast hlt2⟩

/-- C1: `ExplosionManager::CheckExplosionDamage(position, radius)` returns
true iff some pooled explosion is in its damage phase (active, elapsed timer
below its total duration) and its centre lies at distance strictly less than
the current blast radius `min(timer / maxDuration, 1) * maxRadius` plus the
target radius; otherwise it returns false.  The hypothesis is the state
invariant that an active explosion has not outlived its duration, which
`Explosion::Update` maintains. -/
theorem checkExplosionDamage_iff (m : ExplosionManager) (position : Vec2) (radius : ℚ)
    (hwf : ∀ e ∈ m.explosions, e.isActive = true → e.timer < e.maxDuration) :
    checkExplosionDamage m position radius = true ↔
      ∃ e ∈ m.explosions, e.isActive = true ∧ e.timer < e.maxDuration ∧
        distLt e.position position
          (min (e.timer / e.maxDuration) 1 * e.maxRadius + radius) = true := by
  rw [checkExplosionDamage, List.any_eq_true]
  constructor
  · rintro ⟨e, he, hcond⟩
    rw [Bool.and_eq_true] at hcond
    obtain ⟨hphase, hdist⟩ := hcond
    have hact : e.isActive = true := hphase
    refine ⟨e, he, hact, hwf e he hact, ?_⟩
    have : e.getDamageRadius = min (e.timer / e.maxDuration) 1 * e.maxRadius := by
      rw [Explosion.getDamageRadius, if_pos hact, Explosion.getRadius, if_pos hact]
    rwa [this] at hdist
  · rintro ⟨e, he, hact, _htimer, hdist⟩
    refine ⟨e, he, ?_⟩
    rw [Bool.and_eq_true]
    refine ⟨hact, ?_⟩
    have : e.getDamageRadius = min (e.timer / e.maxDuration) 1 * e.maxRadius := by
      rw [Explosion.getDamageRadius, if_pos hact, Explosion.getRadius, if_pos hact]
    rwa [this]

/-- Witness for C1: the concrete manager `mgrC1` registers damage at a point
at distance 10 with target radius 5 (current blast radius 80/3). -/
theorem checkExplosionDamage_iff_witness :
    checkExplosionDamage mgrC1 ⟨10, 0⟩ 5 = true :=
  (checkExplosionDamage_iff mgrC1 ⟨10, 0⟩ 5
      (by norm_num [mgrC1, exC1])).mpr
    ⟨exC1, by norm_num [mgrC1], by norm_num [exC1],
      by norm_num [exC1], by norm_num [exC1, distLt, dist2]⟩

/-- Characterization of `ExplosionManager::FindInactiveExplosion`: the found
index is in range, points at an inactive explosion, and every earlier pooled
explosion is active. -/
theorem findInactiveIdx_spec (l : List Explosion) (i : ℕ)
    (h : findInactiveIdx l = some i) :
    i < l.length ∧ (l.getD i default).isActive = false ∧
      ∀ j, j < i → (l.getD j default).isActive = true := by
  induction l generalizing i with
  | nil => simp [findInactiveIdx] at h
  | cons a l ih =>
      rw [findInactiveIdx, List.findIdx?_cons] at h
      cases ha : a.isActive with
      | true =>
          simp only [ha, Bool.not_true, Bool.false_eq_true, if_false,
            List.findIdx?_succ] at h
          obtain ⟨j, hj, rfl⟩ := Option.map_eq_some'.mp h
          obtain ⟨h1, h2, h3⟩ := ih j hj
          refine ⟨by simpa using h1, by simpa using h2, ?_⟩
          intro k hk
          cases k with
          | zero => simpa using ha
          | succ k => exact h3 k (by omega)
      | false =>
          simp only [ha, Bool.not_false, if_true, Option.some.injEq] at h
          obtain rfl : i = 0 := h.symm
          exact ⟨by simp, by simpa using ha, by omega⟩

/-- C3: `ExplosionManager::CreateExplosion` restarts the first inactive
pooled slot in place when one exists (no allocation, pool length and limit
unchanged); with all slots active it allocates a started explosion at the end
only when the pool is below the configured maximum; at capacity with all
slots active the request is dropped and the state is unchanged. -/
theorem createExplosion_pool_policy (m : ExplosionManager) (pos : Vec2)
    (ps : List Particle) :
    (∀ i, findInactiveIdx m.explosions = some i →
      ((m.explosions.getD i default).isActive = false ∧
       (∀ j, j < i → (m.explosions.getD j default).isActive = true) ∧
       (createExplosion m pos ps).explosions =
         m.explosions.set i ((m.explosions.getD i default).start pos ps) ∧
       (createExplosion m pos ps).explosions.length = m.explosions.length ∧
       (createExplosion m pos ps).maxExplosions = m.maxExplosions)) ∧
    (findInactiveIdx m.explosions = Option.none →
      m.explosions.length < m.maxExplosions →
      (createExplosion m pos ps).explosions =
        m.explosions ++ [newExplosion.start pos ps] ∧
      (createExplosion m pos ps).maxExplosions = m.maxExplosions) ∧
    (findInactiveIdx m.explosions = Option.none →
      m.maxExplosions ≤ m.explosions.length →
      createExplosion m pos ps = m) := by
  refine ⟨?_, ?_, ?_⟩
  · intro i hfind
    obtain ⟨_, h2, h3⟩ := findInactiveIdx_spec m.explosions i hfind
    rw [createExplosion, hfind]
    exact ⟨h2, h3, rfl, List.length_set m.explosions i _, rfl⟩
  · intro hfind hlt
    have hall : ∀ e ∈ m.explosions, e.isActive = true := by
      intro e he
      have := List.findIdx?_eq_none_iff.mp hfind e he
      simpa using this
    have hnot : ¬ m.maxExplosions ≤ m.explosions.length := by omega
    simp only [createExplosion, hfind, createNewExplosion, if_neg hnot, if_pos hlt]
    exact ⟨by trivial, by trivial⟩
  · intro hfind hge
    have hall : ∀ e ∈ m.explosions, e.isActive = true := by
      intro e he
      have := List.findIdx?_eq_none_iff.mp hfind e he
      simpa using this
    have hclean : cleanupInactive m.explosions = m.explosions :=
      List.filter_eq_self.mpr hall
    have hnot : ¬ m.explosions.length < m.maxExplosions := by omega
    simp only [createExplosion, hfind, createNewExplosion, if_pos hge, hclean, if_neg hnot]

/-- Witness for C3: the concrete manager `mgrC3` holds one inactive slot,
which a creation request restarts in place. -/
theorem createExplosion_pool_policy_witness :
    findInactiveIdx mgrC3.explosions = some 0 ∧
      (createExplosion mgrC3 ⟨7, 7⟩ []).explosions =
        mgrC3.explosions.set 0 ((mgrC3.explosions.getD 0 default).start ⟨7, 7⟩ []) :=
  ⟨by norm_num [mgrC3, findInactiveIdx, List.findIdx?_cons],
   ((createExplosion_pool_policy mgrC3 ⟨7, 7⟩ []).1 0
      (by norm_num [mgrC3, findInactiveIdx, List.findIdx?_cons])).2.2.1⟩

/-- Every single `ExplosionManager` operation preserves the pool bound
(`length ≤ maxExplosions`). -/
theorem applyOp_preserves_bound (m : ExplosionManager) (op : PoolOp)
    (h : m.explosions.length ≤ m.maxExplosions) :
    (applyOp m op).explosions.length ≤ (applyOp m op).maxExplosions := by
  cases op with
  | create pos ps =>
      rw [applyOp, createExplosion]
      cases hfind : findInactiveIdx m.explosions with
      | some i => simpa using h
      | none =>
          rw [createNewExplosion]
          by_cases hc : m.maxExplosions ≤ m.explosions.length
          · rw [if_pos hc]
            have hlen : (cleanupInactive m.explosions).length ≤ m.explosions.length :=
              List.length_filter_le _ _
            split_ifs with hroom
            · simpa using hroom
            · simpa using le_trans hlen h
          · rw [if_neg hc]
            split_ifs with hroom
            · simpa using hroom
            · simpa using h
  | update dt =>
      rw [applyOp, ExplosionManager.update]
      split_ifs with hdt
      · exact h
      · simpa using h
  | clear => simp [applyOp, ExplosionManager.clear]
  | setMax k =>
      rw [applyOp, setMaxExplosions]
      split_ifs with hvalid hover
      · simp only [List.length_drop]
        omega
      · simpa using by omega
      · exact h
  | reserve n => simpa [applyOp, reserveExplosions] using h

/-- C6: starting from the empty pool, after any sequence of
`ExplosionManager` operations (`CreateExplosion`, `Update`, `Clear`,
`SetMaxExplosions`, `ReserveExplosions`) the number of stored explosions
never exceeds the configured maximum. -/
theorem explosion_pool_capacity_invariant (ops : List PoolOp) :
    (ops.foldl applyOp emptyManager).explosions.length ≤
      (ops.foldl applyOp emptyManager).maxExplosions := by
  have main : ∀ (l : List PoolOp) (m : ExplosionManager),
      m.explosions.length ≤ m.maxExplosions →
      (l.foldl applyOp m).explosions.length ≤ (l.foldl applyOp m).maxExplosions := by
    intro l
    induction l with
    | nil => intro m hm; simpa using hm
    | cons op l ih =>
        intro m hm
        rw [List.foldl_cons]
        exact ih (applyOp m op) (applyOp_preserves_bound m op hm)
  exact main ops emptyManager (by simp [emptyManager])

/-- Byte truncation is monotone on rationals. -/
theorem byteOfRat_mono {q r : ℚ} (h : q ≤ r) : byteOfRat q ≤ byteOfRat r := by
  rw [byteOfRat, byteOfRat]
  exact Int.toNat_le_toNat (Int.floor_le_floor h)

/-- The alpha channel produced by `Explosion::CalculateParticleColor` is the
truncated `255 * lifeRatio`, whatever the base colour. -/
theorem calculateParticleColor_a (x : ℚ) :
    (calculateParticleColor x).a = byteOfRat (255 * x) :=
  rfl

/-- One `Explosion::UpdateParticle` step with positive `deltaTime` preserves
particle well-formedness and does not increase the alpha value. -/
theorem updateParticle_step (p : Particle) (dt : ℚ) (hwf : wfParticle p)
    (hdt : 0 < dt) :
    wfParticle (updateParticle p dt) ∧ (updateParticle p dt).color.a ≤ p.color.a := by
  obtain ⟨hml, hle, ha⟩ := hwf
  rw [updateParticle]
  split_ifs with hdead
  · exact ⟨⟨hml, hle, ha⟩, le_refl _⟩
  · have hle2 : p.life - dt ≤ p.maxLife := by linarith
    have hratio : max 0 ((p.life - dt) / p.maxLife) ≤ max 0 (p.life / p.maxLife) := by
      refine max_le_max (le_refl 0) ?_
      exact div_le_div_of_nonneg_right (by linarith) hml.le
    refine ⟨⟨hml, hle2, ?_⟩, ?_⟩
    · exact calculateParticleColor_a _
    · rw [calculateParticleColor_a, ha]
      exact byteOfRat_mono (by nlinarith)

/-- Transitivity of the pointwise alpha comparison between particle lists. -/
theorem forall₂_alpha_trans {l1 l2 l3 : List Particle}
    (h12 : List.Forall₂ (fun q p => q.color.a ≤ p.color.a) l1 l2)
    (h23 : List.Forall₂ (fun q p => q.color.a ≤ p.color.a) l2 l3) :
    List.Forall₂ (fun q p => q.color.a ≤ p.color.a) l1 l3 := by
  induction h12 generalizing l3 with
  | nil => cases h23; exact List.Forall₂.nil
  | cons h t ih =>
      cases h23 with
      | cons h' t' => exact List.Forall₂.cons (le_trans h h') (ih t')

/-- One `Explosion::Update` step with positive `deltaTime` preserves particle
well-formedness and does not increase any particle's alpha. -/
theorem explosion_update_step (e : Explosion) (dt : ℚ)
    (hwf : ∀ p ∈ e.particles, wfParticle p) (hdt : 0 < dt) :
    (∀ p ∈ (e.update dt).particles, wfParticle p) ∧
      List.Forall₂ (fun q p => q.color.a ≤ p.color.a) (e.update dt).particles
        e.particles := by
  rw [Explosion.update]
  split_ifs with hguard
  · exact ⟨hwf, List.forall₂_same.mpr (fun p _ => le_refl _)⟩
  · constructor
    · intro p hp
      simp only [List.mem_map] at hp
      obtain ⟨q, hq, rfl⟩ := hp
      exact (updateParticle_step q dt (hwf q hq) hdt).1
    · simp only [List.forall₂_map_left_iff]
      exact List.forall₂_same.mpr fun p hp => (updateParticle_step p dt (hwf p hp) hdt).2

/-- C7: along any sequence of `Explosion::Update` calls with positive
`deltaTime`, every particle of the explosion keeps a well-formed state and
its alpha value (255 times the clamped remaining-life ratio) never
increases. -/
theorem particle_alpha_nonincreasing (e : Explosion) (ds : List ℚ)
    (hwf : ∀ p ∈ e.particles, wfParticle p) (hds : ∀ d ∈ ds, 0 < d) :
    (∀ p ∈ (applyUpdates e ds).particles, wfParticle p) ∧
      List.Forall₂ (fun q p => q.color.a ≤ p.color.a) (applyUpdates e ds).particles
        e.particles := by
  induction ds generalizing e with
  | nil => exact ⟨hwf, List.forall₂_same.mpr (fun p _ => le_refl _)⟩
  | cons d ds ih =>
      have hd : 0 < d := hds d (by simp)
      obtain ⟨hwf1, hstep⟩ := explosion_update_step e d hwf hd
      have hrest := ih (e.update d) hwf1 (fun x hx => hds x (by simp [hx]))
      rw [applyUpdates, List.foldl_cons]
      exact ⟨hrest.1, forall₂_alpha_trans hrest.2 hstep⟩

/-- Witness for C7: the fresh particle of `exC7` keeps alpha at most 255
after one tenth-second update. -/
theorem particle_alpha_nonincreasing_witness :
    List.Forall₂ (fun q p => q.color.a ≤ p.color.a)
      (applyUpdates exC7 [1/10]).particles exC7.particles :=
  (particle_alpha_nonincreasing exC7 [1/10]
      (by
        intro p hp
        simp only [exC7, List.mem_singleton] at hp
        subst hp
        refine ⟨by norm_num [particleC7], by norm_num [particleC7], ?_⟩
        norm_num [particleC7, WHITE, byteOfRat]
        rfl)
      (by norm_num)).2

/-- When some ground is found overlapping, `Game::GetGroundCollisionInfo`
reports a collision with that ground. -/
theorem getGroundCollisionInfo_found (grounds : List Rect) (c : Circle) (g : Rect)
    (hg : grounds.find? (fun g0 => groundCheckCollision g0 c) = some g) :
    (getGroundCollisionInfo grounds c).hasCollision = true ∧
      (getGroundCollisionInfo grounds c).collidedGround = some g := by
  rw [getGroundCollisionInfo, hg]
  dsimp only
  split_ifs <;> exact ⟨rfl, rfl⟩

/-- The collision-side switch never changes the entity radius. -/
theorem resolveGroundCollision_radius (info : CollisionInfo) (e : EntityState) :
    (resolveGroundCollision info e).bounds.radius = e.bounds.radius := by
  rw [resolveGroundCollision]
  rcases info with ⟨hc, side, d, og⟩
  cases side <;> cases og <;> try rfl
  all_goals split_ifs <;> rfl

/-- After the player safety clamp, the entity circle is never fully inside
the collided ground: either the clamp fires and puts the circle top strictly
above the surface, or the circle bottom already sits on or above it. -/
theorem safetyClamp_not_inside (info : CollisionInfo) (g : Rect) (e1 : EntityState)
    (hg : info.collidedGround = some g) (hr : 0 < e1.bounds.radius) :
    groundIsInside g (safetyClampPlayer info e1).bounds = false := by
  rw [safetyClampPlayer, hg]
  dsimp only
  split_ifs with h
  · simp only [EntityState.setOnGround, EntityState.setVelocityY, EntityState.setY,
      groundIsInside, decide_eq_false_iff_not]
    rintro ⟨-, -, h3, -⟩
    linarith
  · push_neg at h
    simp only [groundIsInside, decide_eq_false_iff_not]
    rintro ⟨-, -, h3, -⟩
    linarith

/-- C2 (amended): for the player (which never phases and has positive
radius), one call to `Game::HandleGroundCollision` while overlapping a
ground leaves the player's circle not fully inside the first overlapping
ground — the player-only safety clamp guarantees it. -/
theorem handleGroundCollision_player_not_inside (grounds : List Rect)
    (e : EntityState) (g : Rect) (hph : e.canPhase = false)
    (hr : 0 < e.bounds.radius)
    (hg : grounds.find? (fun g0 => groundCheckCollision g0 e.bounds) = some g) :
    groundIsInside g ((handleGroundCollision grounds true e).bounds) = false := by
  obtain ⟨hc, hcg⟩ := getGroundCollisionInfo_found grounds e.bounds g hg
  rw [handleGroundCollision]
  rw [if_neg (by simp [hph])]
  rw [if_neg (by simp [hc])]
  rw [if_pos (by trivial)]
  refine safetyClamp_not_inside _ g _ hcg ?_
  rw [resolveGroundCollision_radius]
  exact hr

/-- C2 (counterexample): the claim fails for an enemy.  The concrete enemy
`enemyC2` overlaps `groundC2`, its circle is fully inside the ground, the
minimum-penetration side is Bottom, and with zero vertical velocity the
velocity-gated vertical resolution does nothing, so after
`Game::HandleGroundCollision` the circle is still fully inside. -/
theorem handleGroundCollision_enemy_stays_inside :
    groundCheckCollision groundC2 enemyC2.bounds = true ∧
      groundIsInside groundC2 enemyC2.bounds = true ∧
      groundIsInside groundC2 ((handleGroundCollision [groundC2] false enemyC2).bounds) =
        true := by
  refine ⟨by norm_num [groundCheckCollision, checkCollisionCircleRec, groundC2, enemyC2],
    by norm_num [groundIsInside, groundC2, enemyC2], ?_⟩
  have hfind : [groundC2].find? (fun g0 => groundCheckCollision g0 enemyC2.bounds) =
      some groundC2 := by
    rw [List.find?_cons_of_pos]
    norm_num [groundCheckCollision, checkCollisionCircleRec, groundC2, enemyC2]
  have hinfo : getGroundCollisionInfo [groundC2] enemyC2.bounds =
      { hasCollision := true, side := .bottom, penetrationDepth := 7,
        collidedGround := some groundC2 } := by
    rw [getGroundCollisionInfo, hfind]
    norm_num [groundC2, enemyC2, overlapLeft, overlapRight, overlapTop, overlapBottom]
  rw [handleGroundCollision]
  rw [if_neg (by norm_num [enemyC2])]
  rw [hinfo]
  norm_num [resolveGroundCollision, enemyC2, groundIsInside, groundC2]

/-- Witness for the amended C2 at the concrete falling player `playerC2`
overlapping `groundC2`. -/
theorem handleGroundCollision_player_not_inside_witness :
    playerC2.canPhase = false ∧ (0:ℚ) < playerC2.bounds.radius ∧
      groundIsInside groundC2
        ((handleGroundCollision [groundC2] true playerC2).bounds) = false := by
  refine ⟨rfl, by norm_num [playerC2], ?_⟩
  refine handleGroundCollision_player_not_inside [groundC2] playerC2 groundC2 rfl
    (by norm_num [playerC2]) ?_
  rw [List.find?_cons_of_pos]
  norm_num [groundCheckCollision, checkCollisionCircleRec, playerC2, groundC2]

/-- For a non-player entity that does not phase, `Game::HandleGroundCollision`
on a collision is exactly the collision-side switch. -/
theorem handleGroundCollision_enemy_eq_resolve (grounds : List Rect) (e : EntityState)
    (hph : e.canPhase = false)
    (hc : (getGroundCollisionInfo grounds e.bounds).hasCollision = true) :
    handleGroundCollision grounds false e =
      resolveGroundCollision (getGroundCollisionInfo grounds e.bounds) e := by
  rw [handleGroundCollision]
  rw [if_neg (by simp [hph])]
  rw [if_neg (by simp [hc])]
  rw [if_neg (by simp)]

/-- C4: when an entity overlaps a ground, `Game::GetGroundCollisionInfo`
selects the first overlapping ground, reports a penetration depth equal to
the minimum of the four directional interval overlaps, achieved by the
reported side; `Game::HandleGroundCollision` then resolves along that side,
with horizontal repositioning unconditional and vertical repositioning and
velocity zeroing applied only when the vertical velocity points into the
ground (`velocityY > 0` for Top, `velocityY < 0` for Bottom). -/
theorem groundCollision_resolution_spec (grounds : List Rect) (e : EntityState)
    (g : Rect) (hph : e.canPhase = false)
    (hg : grounds.find? (fun g0 => groundCheckCollision g0 e.bounds) = some g) :
    (getGroundCollisionInfo grounds e.bounds).hasCollision = true ∧
    (getGroundCollisionInfo grounds e.bounds).collidedGround = some g ∧
    (getGroundCollisionInfo grounds e.bounds).penetrationDepth =
      min (min (overlapLeft g e.bounds) (overlapRight g e.bounds))
          (min (overlapTop g e.bounds) (overlapBottom g e.bounds)) ∧
    sideOverlap (getGroundCollisionInfo grounds e.bounds).side
        (overlapLeft g e.bounds) (overlapRight g e.bounds)
        (overlapTop g e.bounds) (overlapBottom g e.bounds) =
      some ((getGroundCollisionInfo grounds e.bounds).penetrationDepth) ∧
    ((getGroundCollisionInfo grounds e.bounds).side = CollisionSide.left →
      handleGroundCollision grounds false e = e.setX (g.x - e.bounds.radius)) ∧
    ((getGroundCollisionInfo grounds e.bounds).side = CollisionSide.right →
      handleGroundCollision grounds false e =
        e.setX (g.x + g.width + e.bounds.radius)) ∧
    ((getGroundCollisionInfo grounds e.bounds).side = CollisionSide.top →
      (0 < e.velocityY →
        handleGroundCollision grounds false e =
          ((e.setOnGround true).setVelocityY 0).setY (g.y - e.bounds.radius)) ∧
      (e.velocityY ≤ 0 → handleGroundCollision grounds false e = e)) ∧
    ((getGroundCollisionInfo grounds e.bounds).side = CollisionSide.bottom →
      (e.velocityY < 0 →
        handleGroundCollision grounds false e =
          (e.setVelocityY 0).setY (g.y + g.height + e.bounds.radius)) ∧
      (0 ≤ e.velocityY → handleGroundCollision grounds false e = e)) := by
  have hred : getGroundCollisionInfo grounds e.bounds =
      (if min (overlapLeft g e.bounds) (overlapRight g e.bounds) <
          min (overlapTop g e.bounds) (overlapBottom g e.bounds) then
        if overlapLeft g e.bounds < overlapRight g e.bounds then
          { hasCollision := true, side := .left,
            penetrationDepth := overlapLeft g e.bounds, collidedGround := some g }
        else
          { hasCollision := true, side := .right,
            penetrationDepth := overlapRight g e.bounds, collidedGround := some g }
      else
        if overlapTop g e.bounds < overlapBottom g e.bounds then
          { hasCollision := true, side := .top,
            penetrationDepth := overlapTop g e.bounds, collidedGround := some g }
        else
          { hasCollision := true, side := .bottom,
            penetrationDepth := overlapBottom g e.bounds,
            collidedGround := some g }) := by
    rw [getGroundCollisionInfo, hg]
  have hc : (getGroundCollisionInfo grounds e.bounds).hasCollision = true := by
    rw [hred]
    split_ifs <;> rfl
  have hhandle := handleGroundCollision_enemy_eq_resolve grounds e hph hc
  rw [hhandle, hred]
  split_ifs with h1 h2 h3
  · rw [min_eq_left h2.le] at h1
    refine ⟨rfl, rfl, ?_, rfl, ?_, ?_, ?_, ?_⟩
    · dsimp only
      rw [min_eq_left h2.le, min_eq_left h1.le]
    · intro _
      rfl
    · intro hside
      exact absurd hside (by decide)
    · intro hside
      exact absurd hside (by decide)
    · intro hside
      exact absurd hside (by decide)
  · push_neg at h2
    rw [min_eq_right h2] at h1
    refine ⟨rfl, rfl, ?_, rfl, ?_, ?_, ?_, ?_⟩
    · dsimp only
      rw [min_eq_right h2, min_eq_left h1.le]
    · intro hside
      exact absurd hside (by decide)
    · intro _
      rfl
    · intro hside
      exact absurd hside (by decide)
    · intro hside
      exact absurd hside (by decide)
  · push_neg at h1
    rw [min_eq_left h3.le] at h1
    refine ⟨rfl, rfl, ?_, rfl, ?_, ?_, ?_, ?_⟩
    · dsimp only
      rw [min_eq_left h3.le, min_eq_right h1]
    · intro hside
      exact absurd hside (by decide)
    · intro hside
      exact absurd hside (by decide)
    · intro _
      refine ⟨?_, ?_⟩
      · intro hv
        rw [resolveGroundCollision]
        dsimp only
        rw [if_pos hv]
      · intro hv
        rw [resolveGroundCollision]
        dsimp only
        rw [if_neg (not_lt.mpr hv)]
    · intro hside
      exact absurd hside (by decide)
  · push_neg at h1 h3
    rw [min_eq_right h3] at h1
    refine ⟨rfl, rfl, ?_, rfl, ?_, ?_, ?_, ?_⟩
    · dsimp only
      rw [min_eq_right h3, min_eq_right h1]
    · intro hside
      exact absurd hside (by decide)
    · intro hside
      exact absurd hside (by decide)
    · intro hside
      exact absurd hside (by decide)
    · intro _
      refine ⟨?_, ?_⟩
      · intro hv
        rw [resolveGroundCollision]
        dsimp only
        rw [if_pos hv]
      · intro hv
        rw [resolveGroundCollision]
        dsimp only
        rw [if_neg (not_lt.mpr hv)]

/-- Witness for C4: the concrete entity `entC4` hits `groundC2` from the
left; the minimum overlap is the left one and the handler repositions along
the x-axis. -/
theorem groundCollision_resolution_spec_witness :
    (getGroundCollisionInfo [groundC2] entC4.bounds).side = CollisionSide.left ∧
      handleGroundCollision [groundC2] false entC4 =
        entC4.setX (groundC2.x - entC4.bounds.radius) := by
  have hfind : [groundC2].find? (fun g0 => groundCheckCollision g0 entC4.bounds) =
      some groundC2 := by
    rw [List.find?_cons_of_pos]
    norm_num [groundCheckCollision, checkCollisionCircleRec, groundC2, entC4]
  have hside : (getGroundCollisionInfo [groundC2] entC4.bounds).side =
      CollisionSide.left := by
    rw [getGroundCollisionInfo, hfind]
    norm_num [groundC2, entC4, overlapLeft, overlapRight, overlapTop, overlapBottom]
  exact ⟨hside,
    (groundCollision_resolution_spec [groundC2] entC4 groundC2 rfl hfind).2.2.2.2.1 hside⟩

end PlayAsGobo
